import Mathlib

/-!
Shallow embedding of the Baralga project repository (Go, `DbProjectRepository`
over PostgreSQL) and the JSON response helper (`util/json_utils.go`), together
with theorems settling the specification claims about them.

The relational store is modelled as explicit state (`Store`): lists of project
rows and activity rows.  SQL statements are given their standard semantics on
that state.  UUIDs are modelled as naturals; `uuid.UUID.String` is injective on
UUIDs (canonical lower-case rendering, which is also how PostgreSQL renders a
`uuid` column), so the textual identifier comparison in `DeleteProjectByID`
coincides with identifier equality in the model.  Failures of the driver
(begin/exec/rollback/commit) are injected through an explicit oracle so that
the transactional error paths of the Go code are all represented.
-/

namespace Baralga

/-- UUIDs as naturals; `0` plays the role of Go's zero value `uuid.UUID{}`. -/
abbrev Uuid := Nat

/-- The `Project` entity (Go struct): ID, Title, Description, Active,
OrganizationID.  In Go an omitted field of a struct literal is the zero
value; the read paths build `Project` literals without `OrganizationID`. -/
structure Project where
  ID : Uuid
  Title : String
  Description : String
  Active : Bool
  OrganizationID : Uuid
deriving Repr, DecidableEq

/-- A row of the `projects` table.  The `description` column is nullable
(`sql.NullString` on the Go side), hence `Option String` here. -/
structure ProjectRow where
  project_id : Uuid
  org_id : Uuid
  title : String
  description : Option String
  active : Bool
deriving Repr, DecidableEq

/-- A row of the `activities` table; only the columns the project repository
touches (`project_id`, `org_id`) are modelled, plus an identifier. -/
structure ActivityRow where
  activity_id : Uuid
  project_id : Uuid
  org_id : Uuid
deriving Repr, DecidableEq

/-- The relational store backing the repository. -/
structure Store where
  projects : List ProjectRow
  activities : List ActivityRow
deriving Repr, DecidableEq

/-- Row-to-struct mapping shared by every read path of the Go code:
`description.String` is `""` when the column is NULL, and the struct literal
does not mention `OrganizationID`, leaving it at the zero value. -/
def rowToProject (r : ProjectRow) : Project :=
  { ID := r.project_id
    Title := r.title
    Description := r.description.getD ""
    Active := r.active
    OrganizationID := 0 }

/-- Modelled from the spec: the external pagination helper
`github.com/baralga/paged` is not part of the source set.  Per the spec it
converts a 1-based page number and size into the offset `(page - 1) * size`
and converts a total row count back into page metadata. -/
structure PageParams where
  page : Nat
  size : Nat
deriving Repr, DecidableEq

/-- Modelled from the spec: `PageParams.Offset` skips `(page - 1) * size`
rows. -/
def PageParams.Offset (pp : PageParams) : Nat :=
  (pp.page - 1) * pp.size

/-- Page metadata: page number, page size, total item count. -/
structure Page where
  page : Nat
  size : Nat
  total : Nat
deriving Repr, DecidableEq

/-- Modelled from the spec: `PageParams.PageOfTotal` builds page metadata from
the request and the total row count. -/
def PageParams.PageOfTotal (pp : PageParams) (total : Nat) : Page :=
  { page := pp.page, size := pp.size, total := total }

/-- `ProjectsPaged`: a page of projects plus its metadata. -/
structure ProjectsPaged where
  Projects : List Project
  Page : Page
deriving Repr, DecidableEq

/-- Errors surfaced by the repository: the domain error `ErrProjectNotFound`,
opaque infrastructure errors (pgx), and `errors.Wrap(cause, msg)`. -/
inductive RepoError where
  | projectNotFound
  | dbError (msg : String)
  | wrapped (msg : String) (cause : RepoError)
deriving Repr, DecidableEq

/-- `var ErrProjectNotFound = errors.New("project not found")`. -/
def ErrProjectNotFound : RepoError := .projectNotFound

/-- Comparison used by `ORDER BY title ASC`: ascending title.  The model
realises the ordering with a stable structural sort. -/
def rowTitleLe (a b : ProjectRow) : Prop :=
  a.title ≤ b.title

instance : DecidableRel rowTitleLe :=
  fun a b => inferInstanceAs (Decidable (a.title ≤ b.title))

instance : IsTotal ProjectRow rowTitleLe :=
  ⟨fun a b => le_total a.title b.title⟩

instance : IsTrans ProjectRow rowTitleLe :=
  ⟨fun _ _ _ => le_trans⟩

/-- `SELECT ... FROM projects WHERE org_id = $1 ORDER BY title ASC`:
the organization's rows in ascending title order. -/
def orgProjectsSorted (s : Store) (organizationID : Uuid) : List ProjectRow :=
  (s.projects.filter (fun r => r.org_id == organizationID)).insertionSort rowTitleLe

/-- Lifecycle of the transaction a repository call opened, as observed when
the call returns: `notOpened` means `Begin` itself failed; `commitIssued` and
`rollbackIssued` mean the corresponding release call was issued (it may itself
have failed); `leaked` means the call returned with the transaction still
open. -/
inductive TxState where
  | notOpened
  | commitIssued
  | rollbackIssued
  | leaked
deriving Repr, DecidableEq

/-- A transaction counts as released unless it was left open. -/
def TxState.released : TxState → Bool
  | .leaked => false
  | _ => true

/-- Failure injection for the driver calls of one repository operation:
`none` means the call succeeds, `some msg` that it fails with message `msg`.
`exec1Err` is the first statement inside the transaction, `exec2Err` the
second (only `DeleteProjectByID` has two). -/
structure TxOracle where
  beginErr : Option String
  exec1Err : Option String
  exec2Err : Option String
  rollbackErr : Option String
  commitErr : Option String
deriving Repr, DecidableEq

/-- The oracle with no injected failures: every driver call succeeds. -/
def cleanOracle : TxOracle :=
  { beginErr := none, exec1Err := none, exec2Err := none
    rollbackErr := none, commitErr := none }

/-- Outcome of a repository operation: the returned value or error, the store
visible after the call, and the state of the transaction (if any). -/
structure OpResult (α : Type) where
  result : Except RepoError α
  store : Store
  tx : TxState
deriving Repr

namespace DbProjectRepository

/-- `FindProjects`: pages the organization's projects ordered by title
ascending (`LIMIT $2 OFFSET $3`), then counts the organization's rows and
builds the page metadata.  No error path is modelled: the queries are
well-formed and reads run outside any transaction. -/
def FindProjects (s : Store) (organizationID : Uuid) (pageParams : PageParams) :
    ProjectsPaged :=
  let rows := ((orgProjectsSorted s organizationID).drop pageParams.Offset).take pageParams.size
  let total := (s.projects.filter (fun r => r.org_id == organizationID)).length
  { Projects := rows.map rowToProject
    Page := pageParams.PageOfTotal total }

/-- `FindProjectsByIDs`: `WHERE org_id = $1 AND project_id = any($2)
ORDER by title ASC`. -/
def FindProjectsByIDs (s : Store) (organizationID : Uuid)
    (projectIDs : List Uuid) : List Project :=
  (((s.projects.filter
      (fun r => r.org_id == organizationID && projectIDs.contains r.project_id))).insertionSort
    rowTitleLe).map rowToProject

/-- `FindProjectByID`: point lookup `WHERE project_id = $1 AND org_id = $2`;
`pgx.ErrNoRows` is translated to `ErrProjectNotFound`. -/
def FindProjectByID (s : Store) (organizationID projectID : Uuid) :
    Except RepoError Project :=
  match s.projects.find?
      (fun r => r.project_id == projectID && r.org_id == organizationID) with
  | none => .error ErrProjectNotFound
  | some r => .ok (rowToProject r)

/-- `InsertProject`: begin; insert the full row (including `org_id`, with the
description written as a plain string, so `""` is stored as `''` and never as
NULL); on statement failure roll back, and if the rollback itself fails return
that failure wrapped as "rollback error"; otherwise commit and return the
input project unchanged. -/
def InsertProject (ora : TxOracle) (s : Store) (project : Project) :
    OpResult Project :=
  match ora.beginErr with
  | some e => ⟨.error (.dbError e), s, .notOpened⟩
  | none =>
    match ora.exec1Err with
    | some e =>
      match ora.rollbackErr with
      | some rb => ⟨.error (.wrapped "rollback error" (.dbError rb)), s, .rollbackIssued⟩
      | none => ⟨.error (.dbError e), s, .rollbackIssued⟩
    | none =>
      let row : ProjectRow :=
        { project_id := project.ID
          org_id := project.OrganizationID
          title := project.Title
          description := some project.Description
          active := project.Active }
      match ora.commitErr with
      | some e => ⟨.error (.dbError e), s, .commitIssued⟩
      | none => ⟨.ok project, { s with projects := s.projects ++ [row] }, .commitIssued⟩

/-- `UpdateProject`: one `UPDATE ... WHERE project_id = $1 AND org_id = $2
RETURNING project_id`; `pgx.ErrNoRows` (no row matched) becomes
`ErrProjectNotFound` and the store is untouched; on success the input project
is returned unchanged. -/
def UpdateProject (s : Store) (organizationID : Uuid) (project : Project) :
    Except RepoError Project × Store :=
  match s.projects.find?
      (fun r => r.project_id == project.ID && r.org_id == organizationID) with
  | none => (.error ErrProjectNotFound, s)
  | some _ =>
    let projects := s.projects.map (fun r =>
      if r.project_id == project.ID && r.org_id == organizationID then
        { r with title := project.Title
                 description := some project.Description
                 active := project.Active }
      else r)
    (.ok project, { s with projects := projects })

/-- `DeleteProjectByID`: begin; delete the activities of `(project_id,
org_id)`; delete the project row `RETURNING project_id`; scan failure rolls
back (a failed rollback is returned wrapped, in preference even to
`pgx.ErrNoRows`); a returned identifier that does not textually match the
request returns `ErrProjectNotFound` with the transaction still open (the
defensive check of the Go code); otherwise commit.  Transaction-local effects
become visible only on a successful commit. -/
def DeleteProjectByID (ora : TxOracle) (s : Store)
    (organizationID projectID : Uuid) : OpResult Unit :=
  match ora.beginErr with
  | some e => ⟨.error (.dbError e), s, .notOpened⟩
  | none =>
    match ora.exec1Err with
    | some e =>
      match ora.rollbackErr with
      | some rb => ⟨.error (.wrapped "rollback error" (.dbError rb)), s, .rollbackIssued⟩
      | none => ⟨.error (.dbError e), s, .rollbackIssued⟩
    | none =>
      let txActivities := s.activities.filter
        (fun a => !(a.project_id == projectID && a.org_id == organizationID))
      match ora.exec2Err with
      | some e =>
        match ora.rollbackErr with
        | some rb => ⟨.error (.wrapped "rollback error" (.dbError rb)), s, .rollbackIssued⟩
        | none => ⟨.error (.dbError e), s, .rollbackIssued⟩
      | none =>
        match s.projects.find?
            (fun r => r.project_id == projectID && r.org_id == organizationID) with
        | none =>
          match ora.rollbackErr with
          | some rb => ⟨.error (.wrapped "rollback error" (.dbError rb)), s, .rollbackIssued⟩
          | none => ⟨.error ErrProjectNotFound, s, .rollbackIssued⟩
        | some r =>
          if r.project_id = projectID then
            let txProjects := s.projects.filter
              (fun p => !(p.project_id == projectID && p.org_id == organizationID))
            match ora.commitErr with
            | some e => ⟨.error (.dbError e), s, .commitIssued⟩
            | none => ⟨.ok (), { projects := txProjects, activities := txActivities }, .commitIssued⟩
          else
            ⟨.error ErrProjectNotFound, s, .leaked⟩

end DbProjectRepository

/-- Abstract model of a `schneider.vip/problem` body as built by the render
helper: a title and the optional wrapped error detail.  `JSONString` renders
it deterministically, so body equality coincides with equality here. -/
structure ProblemBody where
  title : String
  detail : Option String
deriving Repr, DecidableEq

/-- An HTTP error response as written by the helper, plus what was logged
server-side (`log.Printf`). -/
structure HttpResponse where
  status : Nat
  body : ProblemBody
  loggedError : Option String
deriving Repr, DecidableEq

/-- `RenderProblemJSON` (util/json_utils.go): always logs the error; outside
production the problem body wraps the error detail; in production it carries
only the generic title; both paths use `http.StatusInternalServerError`. -/
def RenderProblemJSON (isProduction : Bool) (err : String) : HttpResponse :=
  let logged := some ("internal server error: " ++ err)
  if !isProduction then
    { status := 500
      body := { title := "internal server error", detail := some err }
      loggedError := logged }
  else
    { status := 500
      body := { title := "internal server error", detail := none }
      loggedError := logged }

end Baralga

namespace Baralga

deriving instance DecidableEq for Except

open DbProjectRepository

/-- Helper: what the compound-key predicate used by the point lookup, update
and delete statements says about a row. -/
lemma keyPred_eq {r : ProjectRow} {pid org : Uuid} :
    (r.project_id == pid && r.org_id == org) = true ↔
      r.project_id = pid ∧ r.org_id = org := by
  simp

/-- C10: production-mode confidentiality of `RenderProblemJSON` — in
production the body is the generic "internal server error" problem and is
identical for any two underlying errors; outside production the body carries
the error detail; both modes use HTTP status 500 and log the error. -/
theorem c10_render_problem_confidentiality (e1 e2 : String) :
    (RenderProblemJSON true e1).body = (RenderProblemJSON true e2).body ∧
    (RenderProblemJSON true e1).body = ⟨"internal server error", none⟩ ∧
    (RenderProblemJSON false e1).body = ⟨"internal server error", some e1⟩ ∧
    (∀ b : Bool, (RenderProblemJSON b e1).status = 500 ∧
      (RenderProblemJSON b e1).loggedError
        = some ("internal server error: " ++ e1)) := by
  refine ⟨rfl, rfl, rfl, ?_⟩
  intro b
  cases b <;> exact ⟨rfl, rfl⟩

/-- C3: rollback-failure escalation — in `InsertProject` and
`DeleteProjectByID`, a failing statement is answered with a rollback and the
original statement error; if the rollback itself fails, the wrapped rollback
failure is returned instead, for either statement of the delete. -/
theorem c3_rollback_escalation (s : Store) (p : Project) (org pid : Uuid)
    (e rb : String) (x2 c : Option String) :
    ((InsertProject ⟨none, some e, x2, none, c⟩ s p).result
        = .error (.dbError e) ∧
      (InsertProject ⟨none, some e, x2, none, c⟩ s p).tx = .rollbackIssued) ∧
    (InsertProject ⟨none, some e, x2, some rb, c⟩ s p).result
      = .error (.wrapped "rollback error" (.dbError rb)) ∧
    ((DeleteProjectByID ⟨none, some e, x2, none, c⟩ s org pid).result
        = .error (.dbError e) ∧
      (DeleteProjectByID ⟨none, some e, x2, none, c⟩ s org pid).tx
        = .rollbackIssued) ∧
    (DeleteProjectByID ⟨none, some e, x2, some rb, c⟩ s org pid).result
      = .error (.wrapped "rollback error" (.dbError rb)) ∧
    (DeleteProjectByID ⟨none, none, some e, none, c⟩ s org pid).result
      = .error (.dbError e) ∧
    (DeleteProjectByID ⟨none, none, some e, some rb, c⟩ s org pid).result
      = .error (.wrapped "rollback error" (.dbError rb)) :=
  ⟨⟨rfl, rfl⟩, rfl, ⟨rfl, rfl⟩, rfl, rfl, rfl⟩

/-- C4: no transaction leak — for every failure-injection oracle, every store
and all inputs, `InsertProject` and `DeleteProjectByID` return with their
transaction released (committed, rolled back, or never opened); in
particular the defensive identifier check of the delete never fires. -/
theorem c4_no_transaction_leak (ora : TxOracle) (s : Store) (p : Project)
    (org pid : Uuid) :
    (InsertProject ora s p).tx.released = true ∧
    (DeleteProjectByID ora s org pid).tx.released = true := by
  obtain ⟨b, e1, e2, rb, c⟩ := ora
  constructor
  · cases b <;> cases e1 <;> cases rb <;> cases c <;> rfl
  · cases b with
    | some e => rfl
    | none =>
      cases e1 with
      | some e => cases rb <;> rfl
      | none =>
        cases e2 with
        | some e => cases rb <;> rfl
        | none =>
          rcases hf : s.projects.find?
              (fun r => r.project_id == pid && r.org_id == org) with _ | r
          · simp only [DeleteProjectByID, hf]
            cases rb <;> rfl
          · have hp := List.find?_some hf
            rw [keyPred_eq] at hp
            simp only [DeleteProjectByID, hf]
            rw [if_pos hp.1]
            cases c <;> rfl

/-- C9: every `Project` returned by the read operations (`FindProjectByID`,
`FindProjects`, `FindProjectsByIDs`) has its `OrganizationID` at the zero
value: the stored organization identifier only filters the query and is
never copied into the returned entity. -/
theorem c9_reads_zero_organization_id (s : Store) (org pid : Uuid)
    (pp : PageParams) (ids : List Uuid) :
    (∀ q : Project, FindProjectByID s org pid = .ok q →
      q.OrganizationID = 0) ∧
    (∀ q ∈ (FindProjects s org pp).Projects, q.OrganizationID = 0) ∧
    (∀ q ∈ FindProjectsByIDs s org ids, q.OrganizationID = 0) := by
  refine ⟨?_, ?_, ?_⟩
  · intro q hq
    unfold FindProjectByID at hq
    rcases hf : s.projects.find?
        (fun r => r.project_id == pid && r.org_id == org) with _ | r
    · rw [hf] at hq; cases hq
    · rw [hf] at hq
      cases hq
      rfl
  · intro q hq
    simp only [FindProjects, List.mem_map] at hq
    obtain ⟨r, _, hr⟩ := hq
    rw [← hr]; rfl
  · intro q hq
    simp only [FindProjectsByIDs, List.mem_map] at hq
    obtain ⟨r, _, hr⟩ := hq
    rw [← hr]; rfl

/-- A concrete one-project store used by witnesses. -/
def wRow1 : ProjectRow := ⟨1, 5, "Alpha", some "d", true⟩

/-- A store holding exactly `wRow1` and no activities. -/
def wStore1 : Store := ⟨[wRow1], []⟩

/-- Witness for C9 at the concrete store `wStore1`. -/
theorem c9_reads_zero_organization_id_witness :
    (rowToProject wRow1).OrganizationID = 0 ∧
    (rowToProject wRow1).OrganizationID = 0 ∧
    (rowToProject wRow1).OrganizationID = 0 :=
  ⟨(c9_reads_zero_organization_id wStore1 5 1 ⟨1, 1⟩ [1]).1
      (rowToProject wRow1) rfl,
    (c9_reads_zero_organization_id wStore1 5 1 ⟨1, 1⟩ [1]).2.1
      (rowToProject wRow1) (by decide),
    (c9_reads_zero_organization_id wStore1 5 1 ⟨1, 1⟩ [1]).2.2
      (rowToProject wRow1) (by decide)⟩

end Baralga

namespace Baralga

open DbProjectRepository

/-- C1: organization-scoped isolation — a project row stored under `r.org_id`
is invisible to a point lookup under any other organization (not-found),
while the owning organization's lookup returns its current field values; an
update or a (clean-oracle) delete presented under the other organization
fails with not-found and leaves the store unchanged. -/
theorem c1_org_scoped_isolation (s : Store) (r : ProjectRow)
    (hmem : r ∈ s.projects)
    (huniq : ∀ r2 ∈ s.projects, r2.project_id = r.project_id → r2 = r)
    (O2 : Uuid) (hne : O2 ≠ r.org_id) :
    FindProjectByID s O2 r.project_id = .error ErrProjectNotFound ∧
    FindProjectByID s r.org_id r.project_id = .ok (rowToProject r) ∧
    (∀ p : Project, p.ID = r.project_id →
      UpdateProject s O2 p = (.error ErrProjectNotFound, s)) ∧
    (DeleteProjectByID cleanOracle s O2 r.project_id).result
      = .error ErrProjectNotFound ∧
    (DeleteProjectByID cleanOracle s O2 r.project_id).store = s := by
  have hnone : ∀ org2 : Uuid, org2 ≠ r.org_id →
      s.projects.find?
        (fun x => x.project_id == r.project_id && x.org_id == org2) = none := by
    intro org2 h2
    rw [List.find?_eq_none]
    intro x hx hpx
    rw [keyPred_eq] at hpx
    exact h2 (by rw [← hpx.2, huniq x hx hpx.1])
  refine ⟨?_, ?_, ?_, ?_, ?_⟩
  · simp only [FindProjectByID, hnone O2 hne]
  · rcases hf : s.projects.find?
        (fun x => x.project_id == r.project_id && x.org_id == r.org_id) with _ | x
    · exfalso
      rw [List.find?_eq_none] at hf
      exact hf r hmem (by rw [keyPred_eq]; exact ⟨rfl, rfl⟩)
    · have hx := List.find?_some hf
      rw [keyPred_eq] at hx
      have hxr : x = r := huniq x (List.mem_of_find?_eq_some hf) hx.1
      simp only [FindProjectByID, hf, hxr]
  · intro p hp
    have hn3 : s.projects.find?
        (fun x => x.project_id == p.ID && x.org_id == O2) = none := by
      rw [hp]; exact hnone O2 hne
    simp only [UpdateProject, hn3]
  · simp only [DeleteProjectByID, cleanOracle, hnone O2 hne]
  · simp only [DeleteProjectByID, cleanOracle, hnone O2 hne]

/-- Witness for C1 at the one-project store `wStore1` (organization 5,
foreign organization 7). -/
theorem c1_org_scoped_isolation_witness :
    FindProjectByID wStore1 7 1 = .error ErrProjectNotFound ∧
    FindProjectByID wStore1 5 1 = .ok (rowToProject wRow1) :=
  ⟨(c1_org_scoped_isolation wStore1 wRow1 (by decide) (by decide) 7
      (by decide)).1,
    (c1_org_scoped_isolation wStore1 wRow1 (by decide) (by decide) 7
      (by decide)).2.1⟩

/-- C5: an update or delete whose `(project_id, org_id)` pair matches no
stored row fails with `ErrProjectNotFound` and leaves the store unchanged
(the delete's transaction-local activity deletion is rolled back). -/
theorem c5_no_match_not_found_unchanged (s : Store) (org : Uuid)
    (p : Project) (pid : Uuid)
    (hupd : ∀ r ∈ s.projects, r.project_id = p.ID → r.org_id ≠ org)
    (hdel : ∀ r ∈ s.projects, r.project_id = pid → r.org_id ≠ org) :
    UpdateProject s org p = (.error ErrProjectNotFound, s) ∧
    (DeleteProjectByID cleanOracle s org pid).result
      = .error ErrProjectNotFound ∧
    (DeleteProjectByID cleanOracle s org pid).store = s := by
  have hn1 : s.projects.find?
      (fun x => x.project_id == p.ID && x.org_id == org) = none := by
    rw [List.find?_eq_none]
    intro x hx hpx
    rw [keyPred_eq] at hpx
    exact hupd x hx hpx.1 hpx.2
  have hn2 : s.projects.find?
      (fun x => x.project_id == pid && x.org_id == org) = none := by
    rw [List.find?_eq_none]
    intro x hx hpx
    rw [keyPred_eq] at hpx
    exact hdel x hx hpx.1 hpx.2
  refine ⟨?_, ?_, ?_⟩
  · simp only [UpdateProject, hn1]
  · simp only [DeleteProjectByID, cleanOracle, hn2]
  · simp only [DeleteProjectByID, cleanOracle, hn2]

/-- Witness for C5 at the empty store. -/
theorem c5_no_match_not_found_unchanged_witness :
    UpdateProject ⟨[], []⟩ 5 ⟨1, "T", "", true, 5⟩
      = (.error ErrProjectNotFound, ⟨[], []⟩) ∧
    (DeleteProjectByID cleanOracle ⟨[], []⟩ 5 1).result
      = .error ErrProjectNotFound ∧
    (DeleteProjectByID cleanOracle ⟨[], []⟩ 5 1).store = ⟨[], []⟩ :=
  c5_no_match_not_found_unchanged ⟨[], []⟩ 5 ⟨1, "T", "", true, 5⟩ 1
    (by decide) (by decide)

/-- C2: cascading-then-final delete — with a matching project row present and
activities referencing its identifier owned by the same organization, a
clean-oracle `DeleteProjectByID` succeeds, removes exactly the matching
activity rows and the project row, after which the point lookup fails with
not-found and no activity references the identifier; and for every
failure-injection oracle the store is either untouched or fully deleted
(atomicity). -/
theorem c2_cascading_delete (s : Store) (org pid : Uuid)
    (hex : ∃ r ∈ s.projects, r.project_id = pid ∧ r.org_id = org)
    (hact : ∀ a ∈ s.activities, a.project_id = pid → a.org_id = org) :
    (DeleteProjectByID cleanOracle s org pid).result = .ok () ∧
    (DeleteProjectByID cleanOracle s org pid).store =
      ⟨s.projects.filter (fun x => !(x.project_id == pid && x.org_id == org)),
        s.activities.filter
          (fun a => !(a.project_id == pid && a.org_id == org))⟩ ∧
    FindProjectByID (DeleteProjectByID cleanOracle s org pid).store org pid
      = .error ErrProjectNotFound ∧
    (∀ a ∈ (DeleteProjectByID cleanOracle s org pid).store.activities,
      a.project_id ≠ pid) ∧
    (∀ ora : TxOracle,
      (DeleteProjectByID ora s org pid).store = s ∨
      (DeleteProjectByID ora s org pid).store
        = (DeleteProjectByID cleanOracle s org pid).store) := by
  rcases hf : s.projects.find?
      (fun x => x.project_id == pid && x.org_id == org) with _ | r
  · exfalso
    rw [List.find?_eq_none] at hf
    obtain ⟨r, hr, h1, h2⟩ := hex
    exact hf r hr (by rw [keyPred_eq]; exact ⟨h1, h2⟩)
  · have hr := List.find?_some hf
    rw [keyPred_eq] at hr
    have hdel : DeleteProjectByID cleanOracle s org pid =
        ⟨.ok (),
          ⟨s.projects.filter
              (fun x => !(x.project_id == pid && x.org_id == org)),
            s.activities.filter
              (fun a => !(a.project_id == pid && a.org_id == org))⟩,
          .commitIssued⟩ := by
      simp only [DeleteProjectByID, cleanOracle, hf]
      rw [if_pos hr.1]
    refine ⟨by rw [hdel], by rw [hdel], ?_, ?_, ?_⟩
    · rw [hdel]
      have hn : (s.projects.filter
            (fun x => !(x.project_id == pid && x.org_id == org))).find?
          (fun x => x.project_id == pid && x.org_id == org) = none := by
        rw [List.find?_eq_none]
        intro x hx hpx
        rw [List.mem_filter] at hx
        rw [hpx] at hx
        simp at hx
      simp only [FindProjectByID, hn]
    · rw [hdel]
      intro a ha hpa
      rw [List.mem_filter] at ha
      have horg := hact a ha.1 hpa
      rw [hpa, horg] at ha
      simp at ha
    · intro ora
      obtain ⟨b, e1, e2, rb, c⟩ := ora
      cases b with
      | some e => exact .inl rfl
      | none =>
        cases e1 with
        | some e => cases rb <;> exact .inl rfl
        | none =>
          cases e2 with
          | some e => cases rb <;> exact .inl rfl
          | none =>
            cases c with
            | some e =>
              simp only [DeleteProjectByID, hf]
              rw [if_pos hr.1]
              exact .inl rfl
            | none =>
              right
              rw [hdel]
              simp only [DeleteProjectByID, hf]
              rw [if_pos hr.1]

/-- A store holding `wRow1` and three activities, two of which reference
project 1 under organization 5 and one a different project. -/
def wStore2 : Store := ⟨[wRow1], [⟨10, 1, 5⟩, ⟨11, 1, 5⟩, ⟨12, 2, 6⟩]⟩

/-- Witness for C2 at the concrete store `wStore2`. -/
theorem c2_cascading_delete_witness :
    (DeleteProjectByID cleanOracle wStore2 5 1).result = .ok () ∧
    (DeleteProjectByID cleanOracle wStore2 5 1).store = ⟨[], [⟨12, 2, 6⟩]⟩ :=
  ⟨(c2_cascading_delete wStore2 5 1 (by decide) (by decide)).1,
    (c2_cascading_delete wStore2 5 1 (by decide) (by decide)).2.1⟩

end Baralga

namespace Baralga

open DbProjectRepository

/-- The fully populated project used by the C8 counterexample: its
`OrganizationID` is 2, a nonzero value. -/
def cxProject : Project := ⟨1, "Alpha", "", true, 2⟩

/-- C8 counterexample: inserting `cxProject` into the empty store succeeds
and returns it unchanged, but the immediate point lookup does not return a
`Project` value equal field-for-field to the inserted one — the read path
leaves `OrganizationID` at the zero value while the inserted value carried 2. -/
theorem c8_round_trip_counterexample :
    (InsertProject cleanOracle ⟨[], []⟩ cxProject).result = .ok cxProject ∧
    FindProjectByID (InsertProject cleanOracle ⟨[], []⟩ cxProject).store
        cxProject.OrganizationID cxProject.ID ≠ .ok cxProject := by
  decide

/-- C8 (amended): insert followed immediately by find-by-id under the same
organization and id returns data identical to what was inserted in every
field except `OrganizationID`, which the read path leaves at the zero value;
in particular an empty description round-trips as the empty string. -/
theorem c8_round_trip_amended (s : Store) (p : Project)
    (hfresh : ∀ r ∈ s.projects, r.project_id ≠ p.ID) :
    (InsertProject cleanOracle s p).result = .ok p ∧
    FindProjectByID (InsertProject cleanOracle s p).store
        p.OrganizationID p.ID
      = .ok ⟨p.ID, p.Title, p.Description, p.Active, 0⟩ := by
  refine ⟨rfl, ?_⟩
  have hstore : (InsertProject cleanOracle s p).store =
      ⟨s.projects ++
          [⟨p.ID, p.OrganizationID, p.Title, some p.Description, p.Active⟩],
        s.activities⟩ := rfl
  rw [hstore]
  have h1 : s.projects.find?
      (fun x => x.project_id == p.ID && x.org_id == p.OrganizationID)
        = none := by
    rw [List.find?_eq_none]
    intro x hx hpx
    rw [keyPred_eq] at hpx
    exact hfresh x hx hpx.1
  simp only [FindProjectByID, List.find?_append, h1, Option.none_or]
  simp [List.find?, rowToProject]

/-- Witness for the amended C8 at the empty store and `cxProject`. -/
theorem c8_round_trip_amended_witness :
    (InsertProject cleanOracle ⟨[], []⟩ cxProject).result = .ok cxProject ∧
    FindProjectByID (InsertProject cleanOracle ⟨[], []⟩ cxProject).store
        cxProject.OrganizationID cxProject.ID
      = .ok ⟨1, "Alpha", "", true, 0⟩ :=
  c8_round_trip_amended ⟨[], []⟩ cxProject (by decide)

/-- C7: `FindProjectsByIDs` returns a permutation of exactly the
organization's rows whose identifier is in the requested set, sorted by
title ascending; every returned project stems from such a row; and the
empty identifier set yields the empty sequence. -/
theorem c7_find_by_ids (s : Store) (org : Uuid) (ids : List Uuid) :
    (FindProjectsByIDs s org ids).Perm
      ((s.projects.filter
          (fun r => r.org_id == org && ids.contains r.project_id)).map
        rowToProject) ∧
    (FindProjectsByIDs s org ids).Pairwise
      (fun a b => a.Title ≤ b.Title) ∧
    (∀ q ∈ FindProjectsByIDs s org ids,
      ∃ r ∈ s.projects, r.org_id = org ∧ r.project_id ∈ ids ∧
        q = rowToProject r) ∧
    FindProjectsByIDs s org [] = [] := by
  refine ⟨?_, ?_, ?_, ?_⟩
  · exact (List.perm_insertionSort rowTitleLe _).map rowToProject
  · have hs := List.sorted_insertionSort rowTitleLe
      (s.projects.filter
        (fun r => r.org_id == org && ids.contains r.project_id))
    simp only [FindProjectsByIDs]
    rw [List.pairwise_map]
    exact hs.imp (fun h => h)
  · intro q hq
    simp only [FindProjectsByIDs, List.mem_map] at hq
    obtain ⟨r, hr, hq⟩ := hq
    have hr2 := (List.perm_insertionSort rowTitleLe _).mem_iff.mp hr
    rw [List.mem_filter] at hr2
    have hp := hr2.2
    simp only [Bool.and_eq_true, beq_iff_eq] at hp
    refine ⟨r, hr2.1, hp.1, ?_, hq.symm⟩
    simpa using hp.2
  · simp [FindProjectsByIDs]

/-- Witness for C7 at the concrete store `wStore1` and identifier set `[1]`. -/
theorem c7_find_by_ids_witness :
    ∃ r ∈ wStore1.projects, r.org_id = 5 ∧ r.project_id ∈ [1] ∧
      rowToProject wRow1 = rowToProject r :=
  (c7_find_by_ids wStore1 5 [1]).2.2.1 (rowToProject wRow1) (by decide)

/-- Helper: concatenating the `take S` chunks at offsets `0, S, 2S, ...` of a
list reconstructs its first `n * S` elements. -/
lemma flatten_take_chunks {α : Type} (l : List α) (S : Nat) :
    ∀ n : Nat,
      ((List.range n).map (fun k => (l.drop (k * S)).take S)).flatten
        = l.take (n * S) := by
  intro n
  induction n with
  | zero => simp
  | succ n ih =>
    rw [List.range_succ, List.map_append, List.flatten_append, ih]
    simp only [List.map_cons, List.map_nil, List.flatten_cons,
      List.flatten_nil, List.append_nil]
    rw [Nat.succ_mul, List.take_add]

/-- Helper: `ceil (a / S) * S` is at least `a` when `S` is positive. -/
lemma ceil_mul_ge (a S : Nat) (hS : 0 < S) : a ≤ (a + S - 1) / S * S := by
  rcases Nat.eq_zero_or_pos a with h | h
  · simp [h]
  · have h1 : a + S - 1 = (a - 1) + S := by omega
    rw [h1, Nat.add_div_right _ hS]
    have hdm := Nat.div_add_mod (a - 1) S
    have hm : (a - 1) % S < S := Nat.mod_lt _ hS
    have h2 : ((a - 1) / S + 1) * S = S * ((a - 1) / S) + S := by ring
    rw [h2]
    omega

/-- Helper: the mapped chunks flatten to the whole mapped list once `n * S`
covers the list. -/
lemma flatten_map_take_chunks {α β : Type} (f : α → β) (l : List α)
    (S n : Nat) (hn : l.length ≤ n * S) :
    ((List.range n).map (fun k => ((l.drop (k * S)).take S).map f)).flatten
      = l.map f := by
  have h1 : (List.range n).map (fun k => ((l.drop (k * S)).take S).map f)
      = ((List.range n).map (fun k => (l.drop (k * S)).take S)).map
        (List.map f) := by
    rw [List.map_map]
    rfl
  rw [h1, ← List.map_flatten, flatten_take_chunks, List.take_of_length_le hn]

/-- C6: pagination stability — for page size `S ≥ 1`, concatenating the pages
`1 .. ceil(total/S)` of `FindProjects` yields exactly the organization's
projects sorted by title ascending (a permutation of the organization's rows,
pairwise ordered); page metadata always reports the requested page, the size,
and the true total; and an out-of-range page yields the empty sequence. -/
theorem c6_pagination_stability (s : Store) (org : Uuid) (S : Nat)
    (hS : 1 ≤ S) :
    ((List.range
        (((s.projects.filter (fun r => r.org_id == org)).length + S - 1)
          / S)).map
      (fun k => (FindProjects s org ⟨k + 1, S⟩).Projects)).flatten
      = (orgProjectsSorted s org).map rowToProject ∧
    (orgProjectsSorted s org).Perm
      (s.projects.filter (fun r => r.org_id == org)) ∧
    (orgProjectsSorted s org).Pairwise rowTitleLe ∧
    (∀ pp : PageParams, (FindProjects s org pp).Page
      = ⟨pp.page, pp.size,
          (s.projects.filter (fun r => r.org_id == org)).length⟩) ∧
    (∀ page : Nat,
      (s.projects.filter (fun r => r.org_id == org)).length
          ≤ (page - 1) * S →
      (FindProjects s org ⟨page, S⟩).Projects = []) := by
  have hS0 : 0 < S := hS
  have hlen : (orgProjectsSorted s org).length
      = (s.projects.filter (fun r => r.org_id == org)).length :=
    (List.perm_insertionSort rowTitleLe _).length_eq
  refine ⟨?_, List.perm_insertionSort rowTitleLe _,
    List.sorted_insertionSort rowTitleLe _, fun pp => rfl, ?_⟩
  · have hpp : (fun k => (FindProjects s org ⟨k + 1, S⟩).Projects)
        = fun k =>
            (((orgProjectsSorted s org).drop (k * S)).take S).map
              rowToProject := by
      funext k
      simp only [FindProjects, PageParams.Offset, Nat.add_sub_cancel]
    rw [hpp]
    refine flatten_map_take_chunks rowToProject (orgProjectsSorted s org) S _
      ?_
    rw [hlen]
    exact ceil_mul_ge _ S hS0
  · intro page hpage
    have hd : (orgProjectsSorted s org).length ≤ (page - 1) * S := by
      rw [hlen]; exact hpage
    simp only [FindProjects, PageParams.Offset,
      List.drop_eq_nil_of_le hd, List.take_nil, List.map_nil]

/-- Witness for C6 at the concrete store `wStore1`, organization 5 and page
size 1. -/
theorem c6_pagination_stability_witness :
    ((List.range
        (((wStore1.projects.filter (fun r => r.org_id == 5)).length + 1 - 1)
          / 1)).map
      (fun k => (FindProjects wStore1 5 ⟨k + 1, 1⟩).Projects)).flatten
      = (orgProjectsSorted wStore1 5).map rowToProject :=
  (c6_pagination_stability wStore1 5 1 (by decide)).1

end Baralga
